import Mathlib

/-!
Shallow embedding of the geospatial tiling + aggregation pipeline of the
`ibm_ds_capstone_project` repository.

* `src/utils.py`   — grid generation (`create_grid` and its helpers).
* `src/fsquare.py` — the Foursquare aggregation engine (`get_fsquare_data`,
  `make_fsquare_api_call`, `_check_response_code`).

Python floats are modelled as exact rationals (`ℚ`); the Python constant
`2 ** 0.5` is the exact double-precision value that expression evaluates to.
Python exceptions are modelled with `Except`; a reference to an undefined
name (a `NameError` in Python) is modelled by `PyErr.nameError`.
-/

namespace Capstone

/-- The Python exceptions the embedded code can produce. -/
inductive PyErr
  | nameError
  | valueError
deriving DecidableEq, Repr

/-! ## src/utils.py -/

/-- The exact value of the Python float expression `2 ** 0.5`
(the IEEE-754 double nearest to √2), used by `create_grid` (utils.py:70). -/
def sqrt2f : ℚ := 6369051672525773 / 4503599627370496

/-- numpy's `linspace(start, stop, num)` over `ℚ`: `num` evenly spaced values
from `start` to `stop` inclusive; `num = 1` gives `[start]`.  `create_grid`
only ever passes a nonnegative count (its count is a ceiling of a positive
quotient, possibly minus one), so the nonpositive case is mapped to `[]`. -/
def linspace (start stop : ℚ) (num : ℤ) : List ℚ :=
  if num ≤ 0 then []
  else if num = 1 then [start]
  else (List.range num.toNat).map fun i : Nat =>
    start + (i : ℚ) * (stop - start) / ((num : ℚ) - 1)

/-- utils.py:69-72: the overlap allowance,
`minor_radius * (2 ** 0.5) - minor_radius` when `ov` else `0`. -/
def ov_amount (minor_radius : ℚ) (ov : Bool) : ℚ :=
  if ov then minor_radius * sqrt2f - minor_radius else 0

/-- utils.py:76-79: `n = np.ceil(radius / (minor_radius - ov_amount))`, then
`num_grid_areas = n - 1 if (n - radius/minor_radius) >= 0.5 else n`.
Note the adjustment remainder divides by `minor_radius`, not by the
overlap-reduced spacing. -/
def num_grid_areas (radius minor_radius : ℚ) (ov : Bool) : ℤ :=
  let n : ℤ := ⌈radius / (minor_radius - ov_amount minor_radius ov)⌉
  if (1 : ℚ) / 2 ≤ (n : ℚ) - radius / minor_radius then n - 1 else n

/-- The value returned by `create_grid`: the two coordinate matrices and the
effective circle radius. -/
structure GridResult where
  centres_x : List (List ℚ)
  centres_y : List (List ℚ)
  area_radius : ℚ
deriving DecidableEq, Repr

/-- utils.py:92/94: `np.matlib.repmat(row, np.max(row.shape), 1)` — the row
vector replicated (row-wise) into a square matrix. -/
def repmat_row (row : List ℚ) : List (List ℚ) :=
  List.replicate row.length row

/-- utils.py:85-96: the axis loop of `create_grid`.  Iteration `i` computes
`np.linspace(val - radius + minor_radius, val + radius - minor_radius, num)`;
`i = 0` assigns `centres_x`, `i = 1` assigns `centres_y`, any further
component raises `ValueError`.  If the loop finishes without assigning both
matrices, the `return centres_x, centres_y, area_radius` statement references
an unassigned name, a `NameError`. -/
def grid_axes (radius minor_radius : ℚ) (num : ℤ) :
    List ℚ → Nat → Option (List (List ℚ)) → Option (List (List ℚ)) →
    Except PyErr (List (List ℚ) × List (List ℚ))
  | [], _, some cx, some cy => .ok (cx, cy)
  | [], _, _, _ => .error .nameError
  | val :: rest, i, cx?, cy? =>
    let gc := linspace (val - radius + minor_radius) (val + radius - minor_radius) num
    if i = 0 then grid_axes radius minor_radius num rest (i + 1) (some (repmat_row gc)) cy?
    else if i = 1 then grid_axes radius minor_radius num rest (i + 1) cx? (some (repmat_row gc))
    else .error .valueError

/-- utils.py:41-98: `create_grid(centre, radius, minor_radius, area_shape, ov)`.
The `area_shape` argument is accepted and ignored, exactly as in the source
(its TODO is unimplemented). -/
def create_grid (centre : List ℚ) (radius minor_radius : ℚ) (area_shape : String)
    (ov : Bool) : Except PyErr GridResult :=
  let _ := area_shape
  let area_radius := minor_radius - ov_amount minor_radius ov
  match grid_axes radius minor_radius (num_grid_areas radius minor_radius ov) centre 0 none none with
  | .error e => .error e
  | .ok (cx, cy) => .ok ⟨cx, cy, area_radius⟩

/-- Follows the spec's wording of §4.2 step 3 (for comparison with the
source-derived `num_grid_areas`): "Adjust `n` down by one if the fractional
remainder `(n − coverage_radius/step) ≥ 0.5`", with
`step = tile_radius − ov`. -/
def spec_num_grid_areas (radius minor_radius : ℚ) (ov : Bool) : ℤ :=
  let step := minor_radius - ov_amount minor_radius ov
  let n : ℤ := ⌈radius / step⌉
  if (1 : ℚ) / 2 ≤ (n : ℚ) - radius / step then n - 1 else n

/-- Cell-wise pairing of the two returned coordinate matrices: the grid point
of cell `(i, j)` is `(centres_x[i][j], centres_y[i][j])` (the broadcast/
meshgrid reading of the two equally-shaped arrays). -/
def tileCentres (g : GridResult) : List (ℚ × ℚ) :=
  (g.centres_x.zip g.centres_y).flatMap fun p => p.1.zip p.2

/-! ## src/fsquare.py -/

/-- A venue record: the dedup key `id` plus an opaque payload standing for
the rest of the raw JSON object. -/
structure Venue where
  id : String
  payload : Nat
deriving DecidableEq, Repr

/-- The outcome of one `requests.get(url).json()` call as seen by
`get_fsquare_data`: either a parsed response carrying `meta.code` and
(`some`) the `response.venues` list — `none` when that key path is missing
(malformed payload, a `KeyError` on access) — or an exception escaping the
call (network error, invalid search type, unparsable body). -/
inductive ApiResult
  | response (code : ℤ) (venues : Option (List Venue))
  | raised
deriving DecidableEq, Repr

/-- The `all_fsq_data` dictionary (fsquare.py:142): the accumulated venues
and the list of their ids. -/
structure FsqData where
  venues : List Venue
  venue_ids : List String
deriving DecidableEq, Repr

/-- fsquare.py:258-269, `_check_response_code`: `429` warns and sets
`exit_func = True`; the `500` branch's warning f-string references the
undefined name `reponse` (a typo for `response`), raising `NameError`;
any other code warns and returns `False`. -/
def check_response_code (code : ℤ) : Except PyErr Bool :=
  if code = 429 then .ok true
  else if code = 500 then .error .nameError
  else .ok false

/-- fsquare.py:58-95, `make_fsquare_api_call`: for `tp` other than `'cat'`
and `'qur'` a `ValueError` is raised before any request (an exception
escaping the call, hence `raised`); otherwise the HTTP call's outcome is
whatever the external adapter produces for this (area, query). -/
def make_fsquare_api_call {α : Type} (call : α → String → ApiResult)
    (c : α) (q : String) (tp : String) : ApiResult :=
  if tp = "cat" ∨ tp = "qur" then call c q else ApiResult.raised

/-- fsquare.py:151-161, the `try` block of one (area, query) unit:
* the call raising gives `venues = []` via the bare `except`;
* `meta.code = 429` sets `exit_func = True`, and the early
  `return all_fsq_data, venue_ids` references the undefined name
  `venue_ids` — the `NameError` is swallowed by the same bare `except`,
  so the unit yields `[]` and iteration continues;
* `meta.code = 500` propagates `_check_response_code`'s `NameError`
  (`reponse` typo) into the bare `except`, yielding `[]`;
* otherwise the venues are read from the payload, `[]` if malformed. -/
def try_venues (res : ApiResult) : List Venue :=
  match res with
  | .raised => []
  | .response code venues? =>
    match check_response_code code with
    | .error _ => []
    | .ok true => []
    | .ok false =>
      match venues? with
      | none => []
      | some vs => vs

/-- fsquare.py:163-166: the guarded insert into `all_fsq_data` — discard the
venue if its id is recorded, otherwise append the venue and its id. -/
def insertVenue (s : FsqData) (v : Venue) : FsqData :=
  if v.id ∈ s.venue_ids then s
  else ⟨s.venues ++ [v], s.venue_ids ++ [v.id]⟩

/-- fsquare.py:162-168, the per-venue loop: each fresh id is appended
(venue and id); at `verbose = 2` the progress print after an insertion
references the undefined name `venue_ids`, raising `NameError` outside any
`try` — the whole call aborts. -/
def process_venues (verbose : Nat) (s : FsqData) : List Venue → Except PyErr FsqData
  | [] => .ok s
  | v :: rest =>
    if v.id ∈ s.venue_ids then process_venues verbose s rest
    else
      let s' : FsqData := ⟨s.venues ++ [v], s.venue_ids ++ [v.id]⟩
      if verbose = 2 then .error .nameError
      else process_venues verbose s' rest

/-- fsquare.py:146-168: the inner loop over `queries` for one area. -/
def query_loop {α : Type} (call : α → String → ApiResult) (tp : String)
    (verbose : Nat) (c : α) : List String → FsqData → Except PyErr FsqData
  | [], s => .ok s
  | q :: rest, s =>
    match process_venues verbose s (try_venues (make_fsquare_api_call call c q tp)) with
    | .error e => .error e
    | .ok s' => query_loop call tp verbose c rest s'

/-- fsquare.py:143-170: the outer loop over the search areas (the per-area
progress print at line 169-170 only mentions defined names). -/
def area_loop {α : Type} (call : α → String → ApiResult) (tp : String)
    (verbose : Nat) (queries : List String) : List α → FsqData → Except PyErr FsqData
  | [], s => .ok s
  | c :: rest, s =>
    match query_loop call tp verbose c queries s with
    | .error e => .error e
    | .ok s' => area_loop call tp verbose queries rest s'

/-- fsquare.py:97-174, `get_fsquare_data`, after the `coords` normalisation of
lines 133-140 (which only substitutes the default centre for an empty
placeholder and validates the array shape, leaving a list of coordinate
pairs — taken here as an opaque list `coords : List α` consumed by the
adapter function `call`).  The final summary print (lines 171-172) runs
whenever `verbose` is truthy and references the undefined name `venue_ids`,
raising `NameError` after the loops complete. -/
def get_fsquare_data {α : Type} (call : α → String → ApiResult) (queries : List String)
    (tp : String) (coords : List α) (verbose : Nat) : Except PyErr FsqData :=
  match area_loop call tp verbose queries coords ⟨[], []⟩ with
  | .error e => .error e
  | .ok s => if verbose = 0 then .ok s else .error .nameError

/-! ## Concrete adapter stubs used by the closed theorems below -/

/-- Stub adapter: area 0 succeeds with venue `"a"`, area 1 is rate limited
(status 429), area 2 succeeds with venue `"b"`. -/
def callC1 : Nat → String → ApiResult := fun c _ =>
  if c = 0 then .response 200 (some [⟨"a", 0⟩])
  else if c = 1 then .response 429 (some [])
  else .response 200 (some [⟨"b", 0⟩])

/-- Stub adapter returning the same three venues (one duplicated id with a
different payload) on every call. -/
def callC2 : Nat → String → ApiResult := fun _ _ =>
  .response 200 (some [⟨"a", 0⟩, ⟨"a", 1⟩, ⟨"b", 2⟩])

/-- Stub adapter for the isolation scenario: each of the five areas returns
one distinct venue, except area 2 which returns zero venues. -/
def callC3base : Nat → String → ApiResult := fun c _ =>
  if c = 2 then .response 200 (some [])
  else .response 200 (some [⟨["a", "b", "c", "d", "e"].getD c "z", 0⟩])

/-- Same as `callC3base` but unit (area 2, query `"q"`) raises instead. -/
def callC3fail : Nat → String → ApiResult := fun c q =>
  if c = 2 ∧ q = "q" then .raised else callC3base c q

/-- Stub adapter returning a single venue on every call. -/
def callC5 : Nat → String → ApiResult := fun _ _ => .response 200 (some [⟨"a", 0⟩])

/-- Stub adapter returning a single venue on every call (for the invalid
search-type scenario, where it is never reached). -/
def callC10 : Nat → String → ApiResult := fun _ _ => .response 200 (some [⟨"b", 7⟩])

end Capstone

deriving instance DecidableEq for Except

namespace Capstone

/-! ## Lemmas about the aggregation loops -/

theorem process_venues_ok_sub (verbose : Nat) (vs : List Venue) :
    ∀ (s s' : FsqData), process_venues verbose s vs = Except.ok s' →
      s.venue_ids ⊆ s'.venue_ids := by
  induction vs with
  | nil =>
    intro s s' h
    simp only [process_venues] at h
    cases h
    exact fun a ha => ha
  | cons v rest ih =>
    intro s s' h
    simp only [process_venues] at h
    by_cases hv : v.id ∈ s.venue_ids
    · rw [if_pos hv] at h
      exact ih s s' h
    · rw [if_neg hv] at h
      by_cases h2 : verbose = 2
      · rw [if_pos h2] at h
        cases h
      · rw [if_neg h2] at h
        intro a ha
        exact ih _ s' h (List.mem_append_left _ ha)

theorem process_venues_ok_mem (verbose : Nat) (vs : List Venue) :
    ∀ (s s' : FsqData), process_venues verbose s vs = Except.ok s' →
      ∀ v ∈ vs, v.id ∈ s'.venue_ids := by
  induction vs with
  | nil =>
    intro s s' _ v hv
    cases hv
  | cons v rest ih =>
    intro s s' h w hw
    simp only [process_venues] at h
    by_cases hv : v.id ∈ s.venue_ids
    · rw [if_pos hv] at h
      rcases List.mem_cons.mp hw with hww | hw'
      · exact process_venues_ok_sub verbose rest s s' h (hww ▸ hv)
      · exact ih s s' h w hw'
    · rw [if_neg hv] at h
      by_cases h2 : verbose = 2
      · rw [if_pos h2] at h
        cases h
      · rw [if_neg h2] at h
        rcases List.mem_cons.mp hw with hww | hw'
        · exact process_venues_ok_sub verbose rest _ s' h
            (by rw [hww]; exact List.mem_append_right _ (List.mem_singleton.mpr rfl))
        · exact ih _ s' h w hw'

theorem process_venues_ok_inv (verbose : Nat) (vs : List Venue) :
    ∀ (s s' : FsqData),
      s.venue_ids = s.venues.map Venue.id → s.venue_ids.Nodup →
      process_venues verbose s vs = Except.ok s' →
      s'.venue_ids = s'.venues.map Venue.id ∧ s'.venue_ids.Nodup := by
  induction vs with
  | nil =>
    intro s s' h1 h2 h
    simp only [process_venues] at h
    cases h
    exact ⟨h1, h2⟩
  | cons v rest ih =>
    intro s s' h1 h2 h
    simp only [process_venues] at h
    by_cases hv : v.id ∈ s.venue_ids
    · rw [if_pos hv] at h
      exact ih s s' h1 h2 h
    · rw [if_neg hv] at h
      by_cases hvb : verbose = 2
      · rw [if_pos hvb] at h
        cases h
      · rw [if_neg hvb] at h
        refine ih _ s' ?_ ?_ h
        · simp [h1]
        · simp [List.nodup_append, h2, hv]

theorem query_loop_ok_sub {α : Type} (call : α → String → ApiResult) (tp : String)
    (verbose : Nat) (c : α) (qs : List String) :
    ∀ (s s' : FsqData), query_loop call tp verbose c qs s = Except.ok s' →
      s.venue_ids ⊆ s'.venue_ids := by
  induction qs with
  | nil =>
    intro s s' h
    simp only [query_loop] at h
    cases h
    exact fun a ha => ha
  | cons q rest ih =>
    intro s s' h
    simp only [query_loop] at h
    split at h
    · cases h
    next s1 hm =>
      exact (process_venues_ok_sub verbose _ s s1 hm).trans (ih s1 s' h)

theorem query_loop_ok_mem {α : Type} (call : α → String → ApiResult) (tp : String)
    (verbose : Nat) (c : α) (qs : List String) :
    ∀ (s s' : FsqData), query_loop call tp verbose c qs s = Except.ok s' →
      ∀ q ∈ qs, ∀ v ∈ try_venues (make_fsquare_api_call call c q tp),
        v.id ∈ s'.venue_ids := by
  induction qs with
  | nil =>
    intro s s' _ q hq
    cases hq
  | cons q rest ih =>
    intro s s' h q' hq' v hv
    simp only [query_loop] at h
    split at h
    · cases h
    next s1 hm =>
      rcases List.mem_cons.mp hq' with hqq | hq''
      · exact query_loop_ok_sub call tp verbose c rest s1 s' h
          (process_venues_ok_mem verbose _ s s1 hm v (hqq ▸ hv))
      · exact ih s1 s' h q' hq'' v hv

theorem query_loop_ok_inv {α : Type} (call : α → String → ApiResult) (tp : String)
    (verbose : Nat) (c : α) (qs : List String) :
    ∀ (s s' : FsqData),
      s.venue_ids = s.venues.map Venue.id → s.venue_ids.Nodup →
      query_loop call tp verbose c qs s = Except.ok s' →
      s'.venue_ids = s'.venues.map Venue.id ∧ s'.venue_ids.Nodup := by
  induction qs with
  | nil =>
    intro s s' h1 h2 h
    simp only [query_loop] at h
    cases h
    exact ⟨h1, h2⟩
  | cons q rest ih =>
    intro s s' h1 h2 h
    simp only [query_loop] at h
    split at h
    · cases h
    next s1 hm =>
      obtain ⟨g1, g2⟩ := process_venues_ok_inv verbose _ s s1 h1 h2 hm
      exact ih s1 s' g1 g2 h

theorem area_loop_ok_sub {α : Type} (call : α → String → ApiResult) (tp : String)
    (verbose : Nat) (queries : List String) (cs : List α) :
    ∀ (s s' : FsqData), area_loop call tp verbose queries cs s = Except.ok s' →
      s.venue_ids ⊆ s'.venue_ids := by
  induction cs with
  | nil =>
    intro s s' h
    simp only [area_loop] at h
    cases h
    exact fun a ha => ha
  | cons c rest ih =>
    intro s s' h
    simp only [area_loop] at h
    split at h
    · cases h
    next s1 hm =>
      exact (query_loop_ok_sub call tp verbose c queries s s1 hm).trans (ih s1 s' h)

theorem area_loop_ok_mem {α : Type} (call : α → String → ApiResult) (tp : String)
    (verbose : Nat) (queries : List String) (cs : List α) :
    ∀ (s s' : FsqData), area_loop call tp verbose queries cs s = Except.ok s' →
      ∀ c ∈ cs, ∀ q ∈ queries, ∀ v ∈ try_venues (make_fsquare_api_call call c q tp),
        v.id ∈ s'.venue_ids := by
  induction cs with
  | nil =>
    intro s s' _ c hc
    cases hc
  | cons c rest ih =>
    intro s s' h c' hc' q hq v hv
    simp only [area_loop] at h
    split at h
    · cases h
    next s1 hm =>
      rcases List.mem_cons.mp hc' with hcc | hc''
      · exact area_loop_ok_sub call tp verbose queries rest s1 s' h
          (query_loop_ok_mem call tp verbose c queries s s1 hm q hq v (hcc ▸ hv))
      · exact ih s1 s' h c' hc'' q hq v hv

theorem area_loop_ok_inv {α : Type} (call : α → String → ApiResult) (tp : String)
    (verbose : Nat) (queries : List String) (cs : List α) :
    ∀ (s s' : FsqData),
      s.venue_ids = s.venues.map Venue.id → s.venue_ids.Nodup →
      area_loop call tp verbose queries cs s = Except.ok s' →
      s'.venue_ids = s'.venues.map Venue.id ∧ s'.venue_ids.Nodup := by
  induction cs with
  | nil =>
    intro s s' h1 h2 h
    simp only [area_loop] at h
    cases h
    exact ⟨h1, h2⟩
  | cons c rest ih =>
    intro s s' h1 h2 h
    simp only [area_loop] at h
    split at h
    · cases h
    next s1 hm =>
      obtain ⟨g1, g2⟩ := query_loop_ok_inv call tp verbose c queries s s1 h1 h2 hm
      exact ih s1 s' g1 g2 h

theorem get_fsquare_data_ok_elim {α : Type} (call : α → String → ApiResult)
    (queries : List String) (tp : String) (coords : List α) (verbose : Nat)
    (s : FsqData)
    (h : get_fsquare_data call queries tp coords verbose = Except.ok s) :
    area_loop call tp verbose queries coords ⟨[], []⟩ = Except.ok s ∧ verbose = 0 := by
  unfold get_fsquare_data at h
  split at h
  · cases h
  next s0 heq =>
    by_cases hv : verbose = 0
    · rw [if_pos hv] at h
      cases h
      exact ⟨heq, hv⟩
    · rw [if_neg hv] at h
      cases h

theorem query_loop_congr {α : Type} (f g : α → String → ApiResult) (tp : String)
    (verbose : Nat) (c : α) (qs : List String)
    (hunit : ∀ q ∈ qs, try_venues (make_fsquare_api_call f c q tp)
      = try_venues (make_fsquare_api_call g c q tp)) :
    ∀ s, query_loop f tp verbose c qs s = query_loop g tp verbose c qs s := by
  induction qs with
  | nil =>
    intro s
    rfl
  | cons q rest ih =>
    intro s
    simp only [query_loop]
    rw [hunit q (List.mem_cons_self q rest)]
    cases process_venues verbose s (try_venues (make_fsquare_api_call g c q tp)) with
    | error e => rfl
    | ok s1 => exact ih (fun q' hq' => hunit q' (List.mem_cons_of_mem q hq')) s1

theorem area_loop_congr {α : Type} (f g : α → String → ApiResult) (tp : String)
    (verbose : Nat) (queries : List String) (cs : List α)
    (hunit : ∀ c ∈ cs, ∀ q ∈ queries, try_venues (make_fsquare_api_call f c q tp)
      = try_venues (make_fsquare_api_call g c q tp)) :
    ∀ s, area_loop f tp verbose queries cs s = area_loop g tp verbose queries cs s := by
  induction cs with
  | nil =>
    intro s
    rfl
  | cons c rest ih =>
    intro s
    simp only [area_loop]
    rw [query_loop_congr f g tp verbose c queries
      (fun q hq => hunit c (List.mem_cons_self c rest) q hq) s]
    cases query_loop g tp verbose c queries s with
    | error e => rfl
    | ok s1 => exact ih (fun c' hc' q hq => hunit c' (List.mem_cons_of_mem c hc') q hq) s1

end Capstone

namespace Capstone

/-! ## Claim theorems — aggregation engine -/

/-- C1: the rate-limit short-circuit claimed by the spec does not happen.
With three areas whose calls return status 200 (venue `"a"`), status 429,
and status 200 (venue `"b"`) in that order, `get_fsquare_data` returns a
result containing the venue of the area *after* the rate-limited one: the
early `return all_fsq_data, venue_ids` on a 429 references the undefined
name `venue_ids`, the resulting `NameError` is swallowed by the bare
`except`, and iteration continues through the remaining units instead of
returning the partial result. -/
theorem rate_limit_not_short_circuit :
    get_fsquare_data callC1 ["q"] "qur" [0, 1, 2] 0
      = Except.ok ⟨[⟨"a", 0⟩, ⟨"b", 0⟩], ["a", "b"]⟩ := by decide

/-- C2: every result set produced by `get_fsquare_data` records exactly the
ids of its stored venues, in order, with no duplicate ids; the insert
operation discards a venue whose id is already present (first payload
retained) and appends a venue with a fresh id at the end. -/
theorem resultset_invariant_and_dedup {α : Type} (call : α → String → ApiResult)
    (queries : List String) (tp : String) (coords : List α) (verbose : Nat)
    (s t : FsqData) (v : Venue)
    (hrun : get_fsquare_data call queries tp coords verbose = Except.ok s) :
    (s.venue_ids = s.venues.map Venue.id ∧ s.venue_ids.Nodup)
    ∧ (v.id ∈ t.venue_ids → insertVenue t v = t)
    ∧ (v.id ∉ t.venue_ids → insertVenue t v = ⟨t.venues ++ [v], t.venue_ids ++ [v.id]⟩) := by
  obtain ⟨hloop, -⟩ := get_fsquare_data_ok_elim call queries tp coords verbose s hrun
  refine ⟨area_loop_ok_inv call tp verbose queries coords ⟨[], []⟩ s rfl List.nodup_nil hloop,
    fun hmem => ?_, fun hmem => ?_⟩
  · simp [insertVenue, hmem]
  · simp [insertVenue, hmem]

/-- Witness for C2: a concrete run whose adapter repeats the id `"a"` with a
different payload; the final result keeps the first payload only, and the
insert operation behaves as stated on a concrete state. -/
theorem resultset_invariant_and_dedup_witness :
    ((FsqData.mk [⟨"a", 0⟩, ⟨"b", 2⟩] ["a", "b"]).venue_ids
        = (FsqData.mk [⟨"a", 0⟩, ⟨"b", 2⟩] ["a", "b"]).venues.map Venue.id
      ∧ (FsqData.mk [⟨"a", 0⟩, ⟨"b", 2⟩] ["a", "b"]).venue_ids.Nodup)
    ∧ ((Venue.mk "a" 1).id ∈ (FsqData.mk [⟨"a", 0⟩] ["a"]).venue_ids →
        insertVenue ⟨[⟨"a", 0⟩], ["a"]⟩ ⟨"a", 1⟩ = ⟨[⟨"a", 0⟩], ["a"]⟩)
    ∧ ((Venue.mk "a" 1).id ∉ (FsqData.mk [⟨"a", 0⟩] ["a"]).venue_ids →
        insertVenue ⟨[⟨"a", 0⟩], ["a"]⟩ ⟨"a", 1⟩
          = ⟨(FsqData.mk [⟨"a", 0⟩] ["a"]).venues ++ [⟨"a", 1⟩],
             (FsqData.mk [⟨"a", 0⟩] ["a"]).venue_ids ++ [(Venue.mk "a" 1).id]⟩) :=
  resultset_invariant_and_dedup callC2 ["q"] "qur" [0] 0
    ⟨[⟨"a", 0⟩, ⟨"b", 2⟩], ["a", "b"]⟩ ⟨[⟨"a", 0⟩], ["a"]⟩ ⟨"a", 1⟩ (by decide)

/-- C3: an unexpected failure of a single (area, query) unit is caught by
the per-unit bare `except` and treated exactly like that unit returning
zero venues — the run's outcome is unchanged elsewhere — and every venue
produced by any other unit still reaches the final result set. -/
theorem transient_failure_isolated {α : Type} (f g : α → String → ApiResult)
    (a0 : α) (q0 : String) (tp : String) (coords : List α) (queries : List String)
    (verbose : Nat)
    (hfail : g a0 q0 = ApiResult.raised)
    (hsame : ∀ x q, ¬(x = a0 ∧ q = q0) → g x q = f x q)
    (hzero : f a0 q0 = ApiResult.response 200 (some [])) :
    get_fsquare_data g queries tp coords verbose
      = get_fsquare_data f queries tp coords verbose
    ∧ ∀ s, get_fsquare_data g queries tp coords verbose = Except.ok s →
        ∀ x ∈ coords, ∀ q ∈ queries, ¬(x = a0 ∧ q = q0) →
          ∀ v ∈ try_venues (make_fsquare_api_call g x q tp), v.id ∈ s.venue_ids := by
  constructor
  · have hunit : ∀ x ∈ coords, ∀ q ∈ queries,
        try_venues (make_fsquare_api_call g x q tp)
          = try_venues (make_fsquare_api_call f x q tp) := by
      intro x _ q _
      by_cases hxq : x = a0 ∧ q = q0
      · obtain ⟨rfl, rfl⟩ := hxq
        unfold make_fsquare_api_call
        by_cases htp : tp = "cat" ∨ tp = "qur"
        · rw [if_pos htp, if_pos htp, hfail, hzero]
          decide
        · rw [if_neg htp, if_neg htp]
      · rw [make_fsquare_api_call, make_fsquare_api_call, hsame x q hxq]
    unfold get_fsquare_data
    rw [area_loop_congr g f tp verbose queries coords hunit]
  · intro s hs x hx q hq _ v hv
    obtain ⟨hloop, -⟩ := get_fsquare_data_ok_elim g queries tp coords verbose s hs
    exact area_loop_ok_mem g tp verbose queries coords ⟨[], []⟩ s hloop x hx q hq v hv

/-- Witness for C3: five areas, the third one failing; the run equals the
run where that unit returns zero venues, and all other units' venues appear. -/
theorem transient_failure_isolated_witness :
    get_fsquare_data callC3fail ["q"] "qur" [0, 1, 2, 3, 4] 0
      = get_fsquare_data callC3base ["q"] "qur" [0, 1, 2, 3, 4] 0
    ∧ ∀ s, get_fsquare_data callC3fail ["q"] "qur" [0, 1, 2, 3, 4] 0 = Except.ok s →
        ∀ x ∈ [0, 1, 2, 3, 4], ∀ q ∈ ["q"], ¬(x = 2 ∧ q = "q") →
          ∀ v ∈ try_venues (make_fsquare_api_call callC3fail x q "qur"),
            v.id ∈ s.venue_ids :=
  transient_failure_isolated callC3base callC3fail 2 "q" "qur" [0, 1, 2, 3, 4] ["q"] 0
    (by decide) (fun x q h => if_neg h) rfl

/-- C5: verbosity is not observationally inert.  On the same input the run
returns the result at `verbose = 0` but raises `NameError` at `verbose = 1`
(the final summary print references the undefined name `venue_ids`) and at
`verbose = 2` (the per-insertion print references the same undefined name),
so no result is returned at all for nonzero verbosity. -/
theorem verbosity_changes_outcome :
    get_fsquare_data callC5 ["q"] "qur" [0] 0 = Except.ok ⟨[⟨"a", 0⟩], ["a"]⟩
    ∧ get_fsquare_data callC5 ["q"] "qur" [0] 1 = Except.error PyErr.nameError
    ∧ get_fsquare_data callC5 ["q"] "qur" [0] 2 = Except.error PyErr.nameError := by
  decide

/-- C10: for any search type other than `'cat'` and `'qur'`, the
`ValueError` raised inside `make_fsquare_api_call` is swallowed by the
per-(area, query) bare `except`, every unit contributes zero venues, and
the call returns an empty result set (at the default verbosity). -/
theorem invalid_tp_returns_empty {α : Type} (call : α → String → ApiResult)
    (queries : List String) (tp : String) (coords : List α)
    (hcat : tp ≠ "cat") (hqur : tp ≠ "qur") :
    get_fsquare_data call queries tp coords 0 = Except.ok ⟨[], []⟩ := by
  have hmk : ∀ (c : α) (q : String), make_fsquare_api_call call c q tp = ApiResult.raised := by
    intro c q
    unfold make_fsquare_api_call
    rw [if_neg]
    rintro (h | h)
    · exact hcat h
    · exact hqur h
  have hq : ∀ (c : α) (qs : List String) (s : FsqData),
      query_loop call tp 0 c qs s = Except.ok s := by
    intro c qs
    induction qs with
    | nil => intro s; rfl
    | cons q rest ih =>
      intro s
      simp only [query_loop, hmk, try_venues, process_venues]
      exact ih s
  have ha : ∀ (cs : List α) (s : FsqData), area_loop call tp 0 queries cs s = Except.ok s := by
    intro cs
    induction cs with
    | nil => intro s; rfl
    | cons c rest ih =>
      intro s
      simp only [area_loop, hq]
      exact ih s
  unfold get_fsquare_data
  rw [ha]
  rfl

/-- Witness for C10: a concrete invalid search type returns the empty
result set even though the adapter would have venues to offer. -/
theorem invalid_tp_returns_empty_witness :
    get_fsquare_data callC10 ["q"] "xyz" [0] 0 = Except.ok ⟨[], []⟩ :=
  invalid_tp_returns_empty callC10 ["q"] "xyz" [0] (by decide) (by decide)

end Capstone

namespace Capstone

/-! ## Lemmas about the grid generator -/

theorem create_grid_ok (cx cy r t : ℚ) (sh : String) (ov : Bool) :
    create_grid [cx, cy] r t sh ov =
      Except.ok ⟨repmat_row (linspace (cx - r + t) (cx + r - t) (num_grid_areas r t ov)),
        repmat_row (linspace (cy - r + t) (cy + r - t) (num_grid_areas r t ov)),
        t - ov_amount t ov⟩ := rfl

theorem linspace_length (start stop : ℚ) (num : ℤ) :
    (linspace start stop num).length = num.toNat := by
  unfold linspace
  by_cases h0 : num ≤ 0
  · rw [if_pos h0]
    simp [Int.toNat_of_nonpos h0]
  · rw [if_neg h0]
    by_cases h1 : num = 1
    · rw [if_pos h1]
      simp [h1]
    · rw [if_neg h1]
      rw [List.length_map, List.length_range]

theorem num_grid_areas_of_ceil (r t : ℚ) (ov : Bool) (n : ℤ)
    (hn : ⌈r / (t - ov_amount t ov)⌉ = n) :
    num_grid_areas r t ov = if (1 : ℚ) / 2 ≤ (n : ℚ) - r / t then n - 1 else n := by
  simp only [num_grid_areas, hn]

theorem num_grid_areas_small (r t : ℚ) (ov : Bool) (hr : 0 < r) (hrt : r < t) :
    num_grid_areas r t ov = if r ≤ t / 2 then 0 else 1 := by
  have ht : 0 < t := hr.trans hrt
  have hcond : ((1 : ℚ) / 2 ≤ ((1 : ℤ) : ℚ) - r / t) ↔ r ≤ t / 2 := by
    push_cast
    constructor
    · intro h
      have h1 : r / t ≤ 1 / 2 := by linarith
      have h2 := (div_le_iff₀ ht).mp h1
      linarith
    · intro h
      have h1 : r ≤ 1 / 2 * t := by linarith
      have h2 := (div_le_iff₀ ht).mpr h1
      linarith
  cases ov with
  | false =>
    have hn : ⌈r / (t - ov_amount t false)⌉ = 1 := by
      rw [show t - ov_amount t false = t from by simp [ov_amount]]
      rw [Int.ceil_eq_iff]
      push_cast
      constructor
      · have := div_pos hr ht
        linarith
      · exact (div_le_one ht).mpr hrt.le
    rw [num_grid_areas_of_ceil r t false 1 hn]
    by_cases hhalf : r ≤ t / 2
    · rw [if_pos (hcond.mpr hhalf), if_pos hhalf]
      decide
    · rw [if_neg (fun hc => hhalf (hcond.mp hc)), if_neg hhalf]
  | true =>
    have hs1 : (1 : ℚ) < sqrt2f := by norm_num [sqrt2f]
    have hs2 : sqrt2f < 3 / 2 := by norm_num [sqrt2f]
    have hstep : t - ov_amount t true = t * (2 - sqrt2f) := by
      rw [show ov_amount t true = t * sqrt2f - t from by simp [ov_amount]]
      ring
    have hstep_pos : 0 < t * (2 - sqrt2f) := mul_pos ht (by linarith)
    by_cases hhalf : r ≤ t / 2
    · have hn : ⌈r / (t - ov_amount t true)⌉ = 1 := by
        rw [hstep, Int.ceil_eq_iff]
        push_cast
        constructor
        · have := div_pos hr hstep_pos
          linarith
        · rw [div_le_one hstep_pos]
          nlinarith [mul_pos ht (show (0 : ℚ) < 3 / 2 - sqrt2f by linarith)]
      rw [num_grid_areas_of_ceil r t true 1 hn, if_pos (hcond.mpr hhalf), if_pos hhalf]
      decide
    · by_cases hrs : r ≤ t * (2 - sqrt2f)
      · have hn : ⌈r / (t - ov_amount t true)⌉ = 1 := by
          rw [hstep, Int.ceil_eq_iff]
          push_cast
          constructor
          · have := div_pos hr hstep_pos
            linarith
          · rw [div_le_one hstep_pos]
            exact hrs
        rw [num_grid_areas_of_ceil r t true 1 hn,
          if_neg (fun hc => hhalf (hcond.mp hc)), if_neg hhalf]
      · push_neg at hrs
        have hn : ⌈r / (t - ov_amount t true)⌉ = 2 := by
          rw [hstep, Int.ceil_eq_iff]
          push_cast
          constructor
          · have := (one_lt_div hstep_pos).mpr hrs
            linarith
          · rw [div_le_iff₀ hstep_pos]
            nlinarith [mul_pos ht (show (0 : ℚ) < 3 - 2 * sqrt2f by linarith)]
        have hc2 : (1 : ℚ) / 2 ≤ ((2 : ℤ) : ℚ) - r / t := by
          push_cast
          have := (div_lt_one ht).mpr hrt
          linarith
        rw [num_grid_areas_of_ceil r t true 2 hn, if_pos hc2, if_neg hhalf]
        decide

end Capstone

namespace Capstone

/-! ## Claim theorems — grid generator -/

/-- C4 (amended): `create_grid` lays out, on each axis, a number of tile
positions equal to `num_grid_areas`, i.e. `n = ceil(radius / step)` adjusted
down by one exactly when `(n - radius / minor_radius) ≥ 0.5` — the remainder
is measured against the raw tile radius, not against the overlap-reduced
step; when overlap is disallowed the two rules coincide. -/
theorem grid_axis_count_follows_code_rule (cx cy r t : ℚ) (sh : String) (ov : Bool) :
    (∃ rowx rowy : List ℚ,
        create_grid [cx, cy] r t sh ov =
          Except.ok ⟨List.replicate rowx.length rowx, List.replicate rowy.length rowy,
            t - ov_amount t ov⟩
        ∧ rowx.length = (num_grid_areas r t ov).toNat
        ∧ rowy.length = (num_grid_areas r t ov).toNat)
    ∧ (ov = false → num_grid_areas r t ov = spec_num_grid_areas r t ov) := by
  constructor
  · exact ⟨linspace (cx - r + t) (cx + r - t) (num_grid_areas r t ov),
      linspace (cy - r + t) (cy + r - t) (num_grid_areas r t ov),
      create_grid_ok cx cy r t sh ov,
      linspace_length (cx - r + t) (cx + r - t) (num_grid_areas r t ov),
      linspace_length (cy - r + t) (cy + r - t) (num_grid_areas r t ov)⟩
  · rintro rfl
    simp [num_grid_areas, spec_num_grid_areas, ov_amount]

/-- Witness for C4 at a concrete input. -/
theorem grid_axis_count_follows_code_rule_witness :
    (∃ rowx rowy : List ℚ,
        create_grid [0, 0] 10 3 "circle" false =
          Except.ok ⟨List.replicate rowx.length rowx, List.replicate rowy.length rowy,
            3 - ov_amount 3 false⟩
        ∧ rowx.length = (num_grid_areas 10 3 false).toNat
        ∧ rowy.length = (num_grid_areas 10 3 false).toNat)
    ∧ (false = false → num_grid_areas 10 3 false = spec_num_grid_areas 10 3 false) :=
  grid_axis_count_follows_code_rule 0 0 10 3 "circle" false

/-- C4 counterexample: with overlap allowed and coverage radius = tile
radius = 100, the code's remainder test `(n - radius/minor_radius) ≥ 0.5`
fires (giving 1 position per axis) while the spec's step-based rule
`(n - radius/step) ≥ 0.5` does not (prescribing 2). -/
theorem rounding_rule_counterexample :
    num_grid_areas 100 100 true = 1 ∧ spec_num_grid_areas 100 100 true = 2 := by
  have hc : ⌈(100 : ℚ) / (100 - ov_amount 100 true)⌉ = 2 := by
    rw [show (100 : ℚ) - ov_amount 100 true = 200 - 100 * sqrt2f from by
      norm_num [ov_amount]; ring]
    rw [Int.ceil_eq_iff]
    constructor <;> norm_num [sqrt2f]
  constructor
  · rw [num_grid_areas_of_ceil 100 100 true 2 hc, if_pos (by push_cast; norm_num)]
    decide
  · simp only [spec_num_grid_areas, hc]
    rw [if_neg (by push_cast; norm_num [ov_amount, sqrt2f])]

/-- C6: at centre (0,0), coverage radius 1000, tile radius 300, no overlap,
`create_grid` returns two identical matrices, each replicating the per-axis
row [-700, 0, 700]; pairing the matrices cell-wise therefore yields only the
three diagonal centres, not the 3 × 3 Cartesian product — e.g. the grid
point (-700, 0) of the Cartesian product is missing.  (For cell-wise pairing
to produce the product, the second matrix would have to be transposed.)  The
per-axis layout and the returned effective radius match the claim. -/
theorem grid_pairs_diagonal_not_cartesian :
    create_grid [0, 0] 1000 300 "circle" false =
      Except.ok ⟨List.replicate 3 [-700, 0, 700], List.replicate 3 [-700, 0, 700], 300⟩
    ∧ tileCentres ⟨List.replicate 3 [-700, 0, 700], List.replicate 3 [-700, 0, 700], 300⟩ =
        [(-700, -700), (0, 0), (700, 700), (-700, -700), (0, 0), (700, 700),
          (-700, -700), (0, 0), (700, 700)]
    ∧ ((-700, 0) : ℚ × ℚ) ∉ tileCentres ⟨List.replicate 3 [-700, 0, 700],
        List.replicate 3 [-700, 0, 700], 300⟩
    ∧ ((-700, 0) : ℚ × ℚ) ∈ ([-700, 0, 700] : List ℚ).product [-700, 0, 700] := by
  refine ⟨?_, ?_, ?_, ?_⟩
  · have hnum : num_grid_areas 1000 300 false = 3 := by
      have hc : ⌈(1000 : ℚ) / (300 - ov_amount 300 false)⌉ = 4 := by
        rw [show (300 : ℚ) - ov_amount 300 false = 300 from by norm_num [ov_amount]]
        rw [Int.ceil_eq_iff]
        constructor <;> norm_num
      rw [num_grid_areas_of_ceil 1000 300 false 4 hc, if_pos (by push_cast; norm_num)]
      decide
    have hrow : linspace ((0 : ℚ) - 1000 + 300) ((0 : ℚ) + 1000 - 300) 3
        = [-700, 0, 700] := by
      unfold linspace
      rw [if_neg (by norm_num), if_neg (by norm_num),
        show List.range ((3 : ℤ)).toNat = [0, 1, 2] from rfl]
      norm_num
    rw [create_grid_ok, hnum, hrow]
    norm_num [repmat_row, ov_amount]
  · decide
  · decide
  · decide

/-- C7 (amended): for `0 < coverage_radius < tile_radius` (either overlap
setting) `create_grid` produces zero tile positions per axis when
`coverage_radius ≤ tile_radius / 2`, and exactly one per axis when
`coverage_radius > tile_radius / 2`; the single tile sits at
`centre - coverage_radius + tile_radius` on each axis, not at the centre. -/
theorem small_coverage_grid (cx cy r t : ℚ) (ov : Bool) (hr : 0 < r) (hrt : r < t) :
    (r ≤ t / 2 → create_grid [cx, cy] r t "circle" ov =
        Except.ok ⟨[], [], t - ov_amount t ov⟩)
    ∧ (t / 2 < r → create_grid [cx, cy] r t "circle" ov =
        Except.ok ⟨[[cx - r + t]], [[cy - r + t]], t - ov_amount t ov⟩) := by
  have hnum := num_grid_areas_small r t ov hr hrt
  constructor
  · intro h
    rw [create_grid_ok, hnum, if_pos h]
    rfl
  · intro h
    rw [create_grid_ok, hnum, if_neg (not_le.mpr h)]
    rfl

/-- Witness for C7 at coverage radius 200, tile radius 300. -/
theorem small_coverage_grid_witness :
    ((200 : ℚ) ≤ 300 / 2 → create_grid [0, 0] 200 300 "circle" false =
        Except.ok ⟨[], [], 300 - ov_amount 300 false⟩)
    ∧ ((300 : ℚ) / 2 < 200 → create_grid [0, 0] 200 300 "circle" false =
        Except.ok ⟨[[(0 : ℚ) - 200 + 300]], [[(0 : ℚ) - 200 + 300]],
          300 - ov_amount 300 false⟩) :=
  small_coverage_grid 0 0 200 300 false (by norm_num) (by norm_num)

/-- C7 counterexample: with coverage radius 100 < tile radius 300 the grid
has zero tiles per axis (not one), and with coverage radius 200 the single
tile per axis sits at coordinate 100, not at the centre 0. -/
theorem small_coverage_counterexample :
    create_grid [0, 0] 100 300 "circle" false = Except.ok ⟨[], [], 300⟩
    ∧ create_grid [0, 0] 200 300 "circle" false = Except.ok ⟨[[100]], [[100]], 300⟩ := by
  constructor
  · rw [create_grid_ok, num_grid_areas_small 100 300 false (by norm_num) (by norm_num),
      if_pos (by norm_num)]
    norm_num [repmat_row, linspace, ov_amount]
  · rw [create_grid_ok, num_grid_areas_small 200 300 false (by norm_num) (by norm_num),
      if_neg (by norm_num)]
    norm_num [repmat_row, linspace, ov_amount, List.replicate_one]

/-- C8 (amended): a centre with more than two components makes `create_grid`
raise `ValueError`, though only when the axis loop reaches the third
component (after the grid scalars and both axes' coordinates have been
computed); a centre with fewer than two components raises no `ValueError`
at all — the return statement references an unassigned output array and the
call fails with `NameError`. -/
theorem wrong_centre_dimensionality (centre : List ℚ) (r t : ℚ) (sh : String)
    (ov : Bool) (hr : 0 < r) (ht : 0 < t) (h : centre.length ≠ 2) :
    create_grid centre r t sh ov =
      Except.error (if 2 < centre.length then PyErr.valueError else PyErr.nameError) := by
  rcases centre with _ | ⟨a, _ | ⟨b, _ | ⟨c, rest⟩⟩⟩
  · rfl
  · rfl
  · exact absurd rfl h
  · rw [if_pos (by simp [List.length_cons])]
    rfl

/-- Witness for C8 at a three-component centre. -/
theorem wrong_centre_dimensionality_witness :
    create_grid [0, 0, 0] 1000 300 "circle" false =
      Except.error (if 2 < ([0, 0, 0] : List ℚ).length then PyErr.valueError
        else PyErr.nameError) :=
  wrong_centre_dimensionality [0, 0, 0] 1000 300 "circle" false (by norm_num) (by norm_num)
    (by decide)

/-- C8 counterexample: a one-component centre does not produce the claimed
configuration `ValueError`; the call fails with `NameError` instead (the
`return` statement references the never-assigned `centres_y`). -/
theorem centre_dimensionality_counterexample :
    create_grid [0] 1000 300 "circle" false = Except.error PyErr.nameError
    ∧ PyErr.nameError ≠ PyErr.valueError :=
  ⟨rfl, by decide⟩

end Capstone
